import Mathlib

/-!
Verification of the plantprince recommendation backend.

The definitions below are shallow embeddings of the Python source:
* `backend/routes/recommendations.py` — context derivation (`get_hardiness_zone`,
  `map_direction_to_sun`), response parsing (`parse_agent_response`), per-plant
  validation and response construction inside `get_plant_recommendations`, and
  the error classifier of its generic `except` block;
* `backend/models/schemas.py` — the `Plant` and `RecommendationResponse`
  pydantic models, embedded as validating constructors;
* `backend/services/logging_service.py` — the `log_request` wrapper and
  `LoggingService.log_request`, embedded with their `try`/`except` structure.

JSON values are modeled by the `Json` inductive; `json_loads` models Python
`json.loads` on the fragment actually exchanged here (objects, arrays, strings
with simple escapes, integer numerals, `true`/`false`/`null`).  Python
`str.find`/slicing/`in` are modeled by `str_find`/`py_slice`/`py_in` over the
character list of the string.
-/

/-- JSON values, as produced by `json.loads`.  Numbers are restricted to the
integer fragment: no input in this development uses fractions or exponents. -/
inductive Json where
  | null : Json
  | bool (b : Bool) : Json
  | num (n : Int) : Json
  | str (s : String) : Json
  | arr (elems : List Json) : Json
  | obj (fields : List (String × Json)) : Json

/-- Skip JSON whitespace, as the Python decoder does between tokens. -/
def skipWs : List Char → List Char
  | [] => []
  | c :: cs => if c = ' ' ∨ c = '\n' ∨ c = '\t' ∨ c = '\r' then skipWs cs else c :: cs

/-- Body of a JSON string literal after the opening quote.  An escape takes the
next character literally (enough for the `\"` and `\\` escapes that occur in
the payloads of this service). -/
def parseStrBody : List Char → Option (List Char × List Char)
  | [] => none
  | '"' :: cs => some ([], cs)
  | '\\' :: e :: cs =>
    match parseStrBody cs with
    | some (s, rest) => some (e :: s, rest)
    | none => none
  | c :: cs =>
    match parseStrBody cs with
    | some (s, rest) => some (c :: s, rest)
    | none => none

/-- Longest leading run of decimal digits. -/
def takeDigits : List Char → (List Char × List Char)
  | [] => ([], [])
  | c :: cs =>
    if c.isDigit then
      let (ds, rest) := takeDigits cs
      (c :: ds, rest)
    else ([], c :: cs)

/-- Decimal value of a digit run. -/
def digitsToNat (ds : List Char) : Nat :=
  ds.foldl (fun acc c => acc * 10 + (c.toNat - 48)) 0

mutual

/-- Fuel-bounded recursive-descent JSON value parser. -/
def parseJsonVal : Nat → List Char → Option (Json × List Char)
  | 0, _ => none
  | fuel + 1, cs0 =>
    let cs := skipWs cs0
    if "true".toList.isPrefixOf cs then some (.bool true, cs.drop 4)
    else if "false".toList.isPrefixOf cs then some (.bool false, cs.drop 5)
    else if "null".toList.isPrefixOf cs then some (.null, cs.drop 4)
    else
      match cs with
      | [] => none
      | c :: rest =>
        if c = '"' then
          match parseStrBody rest with
          | some (s, r) => some (.str (String.mk s), r)
          | none => none
        else if c = '\x7b' then
          match parseJsonObjMembers fuel (skipWs rest) with
          | some (fs, r) => some (.obj fs, r)
          | none => none
        else if c = '[' then
          match parseJsonArrElems fuel (skipWs rest) with
          | some (xs, r) => some (.arr xs, r)
          | none => none
        else if c = '-' ∨ c.isDigit then
          match (if c = '-' then takeDigits rest else takeDigits (c :: rest)) with
          | ([], _) => none
          | (ds, r) =>
            let n : Int := Int.ofNat (digitsToNat ds)
            some (.num (if c = '-' then -n else n), r)
        else none

/-- Array elements after the opening bracket (leading whitespace consumed). -/
def parseJsonArrElems : Nat → List Char → Option (List Json × List Char)
  | 0, _ => none
  | fuel + 1, cs =>
    match cs with
    | ']' :: r => some ([], r)
    | _ =>
      match parseJsonVal fuel cs with
      | none => none
      | some (j, r) =>
        match skipWs r with
        | ',' :: r2 =>
          match parseJsonArrElems fuel (skipWs r2) with
          | some (xs, r3) => some (j :: xs, r3)
          | none => none
        | ']' :: r2 => some ([j], r2)
        | _ => none

/-- Object members after the opening brace (leading whitespace consumed). -/
def parseJsonObjMembers : Nat → List Char → Option (List (String × Json) × List Char)
  | 0, _ => none
  | fuel + 1, cs =>
    match cs with
    | '\x7d' :: r => some ([], r)
    | '"' :: r =>
      match parseStrBody r with
      | none => none
      | some (k, r2) =>
        match skipWs r2 with
        | ':' :: r3 =>
          match parseJsonVal fuel r3 with
          | none => none
          | some (v, r4) =>
            match skipWs r4 with
            | ',' :: r5 =>
              match parseJsonObjMembers fuel (skipWs r5) with
              | some (fs, r6) => some ((String.mk k, v) :: fs, r6)
              | none => none
            | '\x7d' :: r5 => some ([(String.mk k, v)], r5)
            | _ => none
        | _ => none
    | _ => none

end

/-- Model of Python `json.loads`: the whole input (modulo surrounding
whitespace) must be a single JSON value, otherwise the decode fails
(Python raises `json.JSONDecodeError`, modeled as `none`). -/
def json_loads (s : String) : Option Json :=
  match parseJsonVal (2 * s.length + 2) s.toList with
  | some (j, rest) => if skipWs rest = [] then some j else none
  | none => none

/-- Does `needle` occur as a contiguous sublist? -/
def listHasInfix (needle : List Char) : List Char → Bool
  | [] => needle.isEmpty
  | c :: cs => needle.isPrefixOf (c :: cs) || listHasInfix needle cs

/-- Python `needle in hay` on strings: substring containment. -/
def py_in (needle hay : String) : Bool :=
  listHasInfix needle.toList hay.toList

/-- First index at which `needle` starts in the list, if any. -/
def listFindFrom (needle : List Char) : List Char → Option Nat
  | [] => if needle.isEmpty then some 0 else none
  | c :: cs =>
    if needle.isPrefixOf (c :: cs) then some 0
    else
      match listFindFrom needle cs with
      | some n => some (n + 1)
      | none => none

/-- Python `hay.find(needle, start)`; `none` models the `-1` result. -/
def str_find (hay needle : String) (start : Nat) : Option Nat :=
  match listFindFrom needle.toList (hay.toList.drop start) with
  | some n => some (start + n)
  | none => none

/-- Python slice `s[a:b]` for nonnegative bounds. -/
def py_slice (s : String) (a b : Nat) : String :=
  String.mk ((s.toList.drop a).take (b - a))

/-- First index of character `c`, if any. -/
def first_char_idx (c : Char) : List Char → Option Nat
  | [] => none
  | x :: xs =>
    if x = c then some 0
    else
      match first_char_idx c xs with
      | some n => some (n + 1)
      | none => none

/-- Last index of character `c`, if any. -/
def last_char_idx (c : Char) (l : List Char) : Option Nat :=
  match first_char_idx c l.reverse with
  | some n => some (l.length - 1 - n)
  | none => none

/-- Python `str.lower()` (ASCII case mapping, which is all the inputs use). -/
def py_lower (s : String) : String :=
  String.mk (s.toList.map Char.toLower)

/-- Python `str.upper()` (ASCII case mapping). -/
def py_upper (s : String) : String :=
  String.mk (s.toList.map Char.toUpper)

/-- Python `str.strip()`: remove leading and trailing whitespace. -/
def py_strip (s : String) : String :=
  String.mk ((((s.toList.dropWhile Char.isWhitespace).reverse).dropWhile
    Char.isWhitespace).reverse)

/-!
## Response parsing — `parse_agent_response`, recommendations.py lines 177-216

Strict `json.loads` first; on failure the code picks a single extraction by
marker presence (`if "```json" in content: ... elif "```" in content: ...
else: re.search`), and a `json.JSONDecodeError` raised inside the chosen
branch propagates to the enclosing `except`, so later extractions are never
attempted.
-/

/-- Stand-in for the message of a Python `json.JSONDecodeError` (its real text
varies with the input, e.g. starting with this phrase; no theorem below
depends on the exact wording, only on which branch produced the error). -/
def json_decode_error_msg : String := "Expecting value"

/-- Fallback (a): text between `\x60\x60\x60json` and the next fence
(`json_start = content.find("\x60\x60\x60json") + 7`,
`json_end = content.find("\x60\x60\x60", json_start)`, slice, `.strip()`).
When the closing fence is missing Python's `find` gives `-1` and the slice
`content[json_start:-1]` stops one character before the end. -/
def extract_fence_json (content : String) : String :=
  let json_start := (str_find content "```json" 0).getD 0 + 7
  let json_end := (str_find content "```" json_start).getD (content.length - 1)
  py_strip (py_slice content json_start json_end)

/-- Fallback (b): text between a bare `\x60\x60\x60` fence and the next fence. -/
def extract_fence_bare (content : String) : String :=
  let json_start := (str_find content "```" 0).getD 0 + 3
  let json_end := (str_find content "```" json_start).getD (content.length - 1)
  py_strip (py_slice content json_start json_end)

/-- Fallback (c): `re.search(r"\x7b.*\x7d", content, re.DOTALL).group()` —
with a greedy `.*` the leftmost match runs from the first opening brace that
has a closing brace strictly after it to the last closing brace of the
string. -/
def regex_brace_match (content : String) : Option String :=
  let cs := content.toList
  match first_char_idx '\x7b' cs, last_char_idx '\x7d' cs with
  | some i, some j => if i < j then some (py_slice content i (j + 1)) else none
  | _, _ => none

/-- Lines 191-211 of `parse_agent_response`: strict parse, then fence / fence /
regex extraction selected by marker presence.  A decode failure inside the
selected branch is a raised `JSONDecodeError` (error result), not a signal to
try the next extraction. -/
def extract_json (content : String) : Except String Json :=
  match json_loads content with
  | some j => .ok j
  | none =>
    if py_in "```json" content then
      match json_loads (extract_fence_json content) with
      | some j => .ok j
      | none => .error json_decode_error_msg
    else if py_in "```" content then
      match json_loads (extract_fence_bare content) with
      | some j => .ok j
      | none => .error json_decode_error_msg
    else
      match regex_brace_match content with
      | some s =>
        match json_loads s with
        | some j => .ok j
        | none => .error json_decode_error_msg
      | none => .error "Could not extract JSON from agent response"

/-- First value bound to `key` in an association list (Python `dict` access;
the model JSON objects handled here have distinct keys). -/
def lookup_first {α : Type} : List (String × α) → String → Option α
  | [], _ => none
  | (k, v) :: rest, key => if k = key then some v else lookup_first rest key

/-- Lines 180-189 of `parse_agent_response`: take the first choice's
`message.content` (or `delta.content`).  The Python `KeyError`/`TypeError`
texts for malformed shapes are abbreviated; the two explicit `ValueError`
messages are kept verbatim. -/
def extract_content (agent_response : Json) : Except String String :=
  match agent_response with
  | .obj fields =>
    match (lookup_first fields "choices").getD (.arr []) with
    | .arr [] => .error "No choices in agent response"
    | .arr (c :: _) =>
      match c with
      | .obj cf =>
        match lookup_first cf "message" with
        | some (.obj mf) =>
          match lookup_first mf "content" with
          | some (.str s) => .ok s
          | _ => .error "content"
        | some _ => .error "message is not an object"
        | none =>
          match lookup_first cf "delta" with
          | some (.obj df) =>
            match lookup_first df "content" with
            | some (.str s) => .ok s
            | _ => .error "content"
          | some _ => .error "delta is not an object"
          | none => .error "Invalid response structure from agent"
      | _ => .error "Invalid response structure from agent"
    | _ => .error "No choices in agent response"
  | _ => .error "No choices in agent response"

/-- `parse_agent_response` applied to the already extracted completion text:
lines 191-213 wrapped by the outer `except Exception` of line 215, which
prefixes every failure with `"Failed to parse agent response: "`. -/
def parse_agent_content (content : String) : Except String Json :=
  match extract_json content with
  | .ok j => .ok j
  | .error m => .error ("Failed to parse agent response: " ++ m)

/-- Whole `parse_agent_response` (lines 177-216). -/
def parse_agent_response (agent_response : Json) : Except String Json :=
  match extract_content agent_response with
  | .ok content => parse_agent_content content
  | .error m => .error ("Failed to parse agent response: " ++ m)

/-!
## Context derivation — `get_hardiness_zone`, `map_direction_to_sun`
-/

/-- The fixed city→zone table of `get_hardiness_zone` (lines 36-44), in the
insertion order of the Python `dict`, which its iteration preserves. -/
def zone_map : List (String × String) :=
  [("denver", "5b"), ("colorado", "5b"),
   ("seattle", "8b"), ("portland", "8b"),
   ("boston", "6b"), ("new york", "7a"),
   ("chicago", "6a"), ("atlanta", "8a"),
   ("miami", "10b"), ("los angeles", "10a"),
   ("phoenix", "9b"), ("austin", "8b"),
   ("dallas", "8a")]

/-- The `for city, zone in zone_map.items()` loop: first key that is a
substring of the lowered location wins, else the default zone. -/
def zone_lookup : List (String × String) → String → String
  | [], _ => "6b"
  | (city, zone) :: rest, location_lower =>
    if py_in city location_lower then zone else zone_lookup rest location_lower

/-- `get_hardiness_zone` (lines 32-50). -/
def get_hardiness_zone (location : String) : String :=
  zone_lookup zone_map (py_lower location)

/-- The fixed direction→sun table of `map_direction_to_sun` (lines 69-74). -/
def sun_map : List (String × String) :=
  [("N", "shade"), ("NE", "partial shade"), ("NW", "partial shade"),
   ("E", "partial sun"), ("W", "partial sun"),
   ("SE", "partial sun"), ("SW", "partial sun"),
   ("S", "full sun")]

/-- `map_direction_to_sun` (lines 67-75):
`sun_map.get(direction.upper(), "partial sun")`. -/
def map_direction_to_sun (direction : String) : String :=
  (lookup_first sun_map (py_upper direction)).getD "partial sun"

/-!
## Schemas — `models/schemas.py`

`Plant` and `RecommendationResponse` are pydantic models; they are embedded
as records together with validating constructors that model field validation
(enum membership, string length bounds, item-count bounds).  String fields
accept JSON strings (pydantic v1 in addition coerces numbers to `str`, which
`coerce_str` reproduces where the route uses it); enum fields require exact
membership in the enum values; the `bool` field requires a JSON boolean.
-/

/-- `SunRequirementEnum` values. -/
def sun_values : List String := ["Full Sun", "Partial Sun", "Partial Shade", "Shade"]

/-- `WaterLevelEnum` / `MaintenanceLevelEnum` values. -/
def level_values : List String := ["Low", "Medium", "High"]

/-- The `Plant` model (schemas.py lines 90-131), with the enum fields kept as
their string values. -/
structure Plant where
  name : String
  scientific : String
  sun : String
  water : String
  maintenance : String
  plant_now : Bool
  care_instructions : String
  notes : String
deriving DecidableEq

/-- A `str` field with `min_length`/`max_length` bounds. -/
def validate_str (v : Json) (lo hi : Nat) : Option String :=
  match v with
  | .str s => if lo ≤ s.length ∧ s.length ≤ hi then some s else none
  | _ => none

/-- An enum-typed field: the value must be one of the enum's string values. -/
def validate_enum (v : Json) (allowed : List String) : Option String :=
  match v with
  | .str s => if s ∈ allowed then some s else none
  | _ => none

/-- A `bool` field. -/
def validate_bool (v : Json) : Option Bool :=
  match v with
  | .bool b => some b
  | _ => none

/-- `Plant(**mapped_plant_data)`: pydantic validation of the eight fields with
the bounds of schemas.py.  `none` models a raised `ValidationError`. -/
def validate_plant_fields (name scientific sun water maintenance plant_now
    care_instructions notes : Json) : Option Plant := do
  let n ← validate_str name 1 100
  let sc ← validate_str scientific 1 150
  let su ← validate_enum sun sun_values
  let w ← validate_enum water level_values
  let m ← validate_enum maintenance level_values
  let pn ← validate_bool plant_now
  let ci ← validate_str care_instructions 10 500
  let no ← validate_str notes 10 500
  pure ⟨n, sc, su, w, m, pn, ci, no⟩

/-- One iteration of the validation loop of `get_plant_recommendations`
(recommendations.py lines 281-299): remap provider field names onto the Plant
fields with per-field defaults, then validate; a non-object entry raises
(`AttributeError` on `.get`) and is likewise skipped, so both failure modes
are `none`. -/
def validate_mapped_plant (plant_data : Json) : Option Plant :=
  match plant_data with
  | .obj fields =>
    validate_plant_fields
      ((lookup_first fields "name").getD (.str "Unknown Plant"))
      ((lookup_first fields "scientific_name").getD (.str "Unknown species"))
      ((lookup_first fields "sun_requirements").getD (.str "Partial Sun"))
      ((lookup_first fields "water_needs").getD (.str "Medium"))
      ((lookup_first fields "maintenance_level").getD (.str "Medium"))
      ((lookup_first fields "plant_now").getD (.bool false))
      ((lookup_first fields "description").getD (.str "No care instructions available"))
      ((lookup_first fields "description").getD (.str "No additional notes available"))
  | _ => none

/-- The `RecommendationResponse` model (schemas.py lines 134-164). -/
structure RecommendationResponse where
  location : String
  season : String
  plants : List Plant
  generated_by : String
deriving DecidableEq

/-- pydantic v1 coercion to `str` for the JSON values that reach the
`location`/`season` fields (strings pass through, numbers are stringified,
other shapes fail validation). -/
def coerce_str (v : Json) : Option String :=
  match v with
  | .str s => some s
  | .num n => some (toString n)
  | _ => none

/-- `RecommendationResponse(...)`: field validation of schemas.py —
`season` has `min_length=5, max_length=100`; `plants` has
`min_items=1, max_items=10` (the custom `validate_plants_count` repeats the
same bounds); `location` and `generated_by` are unconstrained strings.
`.error` models a raised `ValidationError` (message abbreviated; the route
only classifies it through its generic handler). -/
def mkRecommendationResponse (location season : Json) (plants : List Plant)
    (generated_by : String) : Except String RecommendationResponse :=
  match coerce_str location with
  | none => .error "validation error for RecommendationResponse location"
  | some l =>
    match coerce_str season with
    | none => .error "validation error for RecommendationResponse season"
    | some s =>
      if s.length < 5 then .error "validation error for RecommendationResponse season"
      else if 100 < s.length then .error "validation error for RecommendationResponse season"
      else if plants.length < 1 then .error "validation error for RecommendationResponse plants"
      else if 10 < plants.length then .error "validation error for RecommendationResponse plants"
      else .ok ⟨l, s, plants, generated_by⟩

/-!
## Route pipeline — `get_plant_recommendations`, recommendations.py lines 259-386
-/

/-- `"plants" in recommendations` / `recommendations["plants"]` for the parsed
object (the recommendations value is a JSON object in every run that reaches
this step with a dict; other shapes fail the membership test). -/
def get_plants (recommendations : Json) : Option Json :=
  match recommendations with
  | .obj fields => lookup_first fields "plants"
  | _ => none

/-- Iteration over `recommendations["plants"]` (a JSON array yields its
elements; the claims below only concern array values). -/
def plant_entries (v : Json) : List Json :=
  match v with
  | .arr xs => xs
  | _ => []

/-- `recommendations.get(key, default)`. -/
def jget_default (recommendations : Json) (key : String) (dflt : Json) : Json :=
  match recommendations with
  | .obj fields => (lookup_first fields key).getD dflt
  | _ => dflt

/-- Steps 5 of the route (lines 277-310): require the `plants` key, validate
each entry independently (invalid ones skipped), fail when none survive, and
build the `RecommendationResponse` from the model's own `location`/`season`
when present, else the request's location / the locally derived season. -/
def validate_recommendations (request_location local_season : String)
    (recommendations : Json) : Except String RecommendationResponse :=
  match get_plants recommendations with
  | none => .error "Missing \x27plants\x27 field in GenAI Agent response"
  | some plants_json =>
    match (plant_entries plants_json).filterMap validate_mapped_plant with
    | [] => .error "No valid plants in GenAI Agent response"
    | p :: ps =>
      mkRecommendationResponse
        (jget_default recommendations "location" (.str request_location))
        (jget_default recommendations "season" (.str local_season))
        (p :: ps) "genai_agent"

/-- Classification of a non-`HTTPException` failure (the `elif` chain of
lines 350-374): status code, machine-readable error code, retry hint. -/
structure ErrorClass where
  status : Nat
  code : String
  retry : Bool
deriving DecidableEq

/-- The substring-matching classifier of the generic `except` block. -/
def classify_error (error_message : String) : ErrorClass :=
  let m := py_lower error_message
  if py_in "not configured" m then ⟨503, "genai_agent_unavailable", false⟩
  else if py_in "authentication" m ∨ py_in "api key" m then ⟨503, "authentication_failed", false⟩
  else if py_in "timeout" m then ⟨504, "request_timeout", true⟩
  else if py_in "rate limit" m then ⟨429, "rate_limit_exceeded", true⟩
  else if py_in "invalid" m ∧ py_in "json" m then ⟨502, "genai_response_invalid", true⟩
  else ⟨500, "genai_agent_failed", true⟩

/-- An `HTTPException` as raised by `call_genai_agent`: 503 when not
configured, the upstream status on `HTTPStatusError`, 504 on timeout. -/
structure HttpError where
  status : Nat
  detail : String
deriving DecidableEq

/-- Terminal outcome of one request. -/
inductive HandlerOutcome where
  | success (resp : RecommendationResponse)
  | clientError (cls : ErrorClass) (message : String)
  | gatewayError (status : Nat) (detail : String)
deriving DecidableEq

/-- The handler body of `get_plant_recommendations` from the gateway call on
(lines 271-386), with the gateway result as input.  The second component
counts `await log_request(log_data)` calls on the taken path: the success and
generic-`except` paths log once before returning/raising, while
`except HTTPException: raise` (line 330-331) re-raises without logging. -/
def get_plant_recommendations_flow (request_location local_season : String)
    (gateway : Except HttpError Json) : HandlerOutcome × Nat :=
  match gateway with
  | .error e => (.gatewayError e.status e.detail, 0)
  | .ok agent_response =>
    match (parse_agent_response agent_response).bind
        (validate_recommendations request_location local_season) with
    | .ok resp => (.success resp, 1)
    | .error msg =>
      (.clientError (classify_error msg)
        ("Unable to generate plant recommendations: " ++ msg), 1)

/-!
## Logging — `services/logging_service.py`

Sub-operations that can fail (console serialization, the database commit, the
Spaces backup) are inputs; the `try`/`except` nesting of the source is kept.
-/

/-- The module-level `log_request` wrapper (lines 193-215): everything runs in
a `try` whose `except Exception` only logs; the Spaces backup has its own
inner `try`/`except` that swallows its failure with a warning. -/
def log_request_simple (console_log : Except String Unit) (spaces_enabled : Bool)
    (backup : Except String (Option String)) : Except String Unit :=
  match (do
      let _ ← console_log
      if spaces_enabled then
        match backup with
        | .ok _ => pure ()
        | .error _ => pure ()
      else pure ()
    : Except String Unit) with
  | .ok _ => .ok ()
  | .error _ => .ok ()

/-- `LoggingService.log_request` (lines 42-80): build and commit the row
(identified here by its row id), attempt the Spaces backup inside an inner
`try` that swallows failure, and return the entry; any failure of the outer
body is caught, rolled back, and turned into `None`. -/
def loggingService_log_request (commit : Except String Nat)
    (backup : Except String (Option String)) : Except String (Option Nat) :=
  match (do
      let row_id ← commit
      match backup with
      | .ok _ => pure (some row_id)
      | .error _ => pure (some row_id)
    : Except String (Option Nat)) with
  | .ok r => .ok r
  | .error _ => .ok none

/-- A completion whose fenced block holds non-JSON while the greedy regex
fallback would find valid JSON further down. -/
def mixed_fence_content : String := "```json\nnot json\n```\nAnswer: \x7b\"a\": 1\x7d"

/-- The plant built entirely from the per-field remapping defaults. -/
def default_mapped_plant : Plant :=
  ⟨"Unknown Plant", "Unknown species", "Partial Sun", "Medium", "Medium", false,
   "No care instructions available", "No additional notes available"⟩

/-!
## Helper lemmas
-/

theorem filterMap_length_eq_countP {α β : Type} (f : α → Option β) :
    ∀ l : List α, (l.filterMap f).length = l.countP (fun a => (f a).isSome)
  | [] => rfl
  | a :: t => by
    cases h : f a <;>
      simp [List.filterMap_cons, h, List.countP_cons, filterMap_length_eq_countP f t]

theorem filterMap_eq_nil_of_forall_none {α β : Type} (f : α → Option β) :
    ∀ l : List α, (∀ a ∈ l, f a = none) → l.filterMap f = []
  | [], _ => rfl
  | a :: t, h => by
    simp [List.filterMap_cons, h a (List.mem_cons_self a t),
      filterMap_eq_nil_of_forall_none f t (fun b hb => h b (List.mem_cons_of_mem a hb))]

theorem lookup_first_eq_none {α : Type} :
    ∀ (l : List (String × α)) (key : String),
      key ∉ l.map Prod.fst → lookup_first l key = none
  | [], _, _ => rfl
  | (k, v) :: t, key, h => by
    simp only [List.map_cons, List.mem_cons, not_or] at h
    have hk : ¬k = key := fun hk => h.1 hk.symm
    simp [lookup_first, hk, lookup_first_eq_none t key h.2]

theorem zone_lookup_eq_find? :
    ∀ (l : List (String × String)) (location_lower : String),
      zone_lookup l location_lower =
        ((l.find? (fun p => py_in p.1 location_lower)).map Prod.snd).getD "6b"
  | [], _ => rfl
  | (city, zone) :: t, loc => by
    by_cases h : py_in city loc = true
    · simp [zone_lookup, h, List.find?_cons_of_pos]
    · simp only [Bool.not_eq_true] at h
      simp [zone_lookup, h, List.find?_cons_of_neg, zone_lookup_eq_find? t loc]

theorem validate_str_isSome {v : Json} {lo hi : Nat}
    (h : ∃ s, v = .str s ∧ lo ≤ s.length ∧ s.length ≤ hi) :
    (validate_str v lo hi).isSome := by
  obtain ⟨s, rfl, h1, h2⟩ := h
  simp [validate_str, h1, h2]

theorem validate_enum_isSome {v : Json} {allowed : List String}
    (h : ∃ s, v = .str s ∧ s ∈ allowed) : (validate_enum v allowed).isSome := by
  obtain ⟨s, rfl, hs⟩ := h
  simp [validate_enum, hs]

theorem validate_bool_isSome {v : Json} (h : ∃ b, v = .bool b) :
    (validate_bool v).isSome := by
  obtain ⟨b, rfl⟩ := h
  simp [validate_bool]

theorem mkRecommendationResponse_ok {location season : Json} {plants : List Plant}
    {generated_by : String} {r : RecommendationResponse}
    (h : mkRecommendationResponse location season plants generated_by = .ok r) :
    r.plants = plants ∧ 1 ≤ plants.length ∧ plants.length ≤ 10 := by
  unfold mkRecommendationResponse at h
  split at h
  · exact (Except.noConfusion h)
  · split at h
    · exact (Except.noConfusion h)
    · split_ifs at h with h1 h2 h3 h4
      all_goals
        first
        | exact (Except.noConfusion h)
        | (injection h with h; subst h; exact ⟨rfl, by omega, by omega⟩)

/-!
## Claim theorems
-/

/-- C7: `get_hardiness_zone` lower-cases the location and returns the zone of
the first city key (in the fixed table order) occurring as a substring, with
default "6b"; in particular Denver maps to "5b" and an unknown city to the
default "6b". -/
theorem C7_zone_lookup_first_match :
    (∀ location : String,
      get_hardiness_zone location =
        ((zone_map.find? (fun p => py_in p.1 (py_lower location))).map Prod.snd).getD "6b")
    ∧ get_hardiness_zone "Denver, CO" = "5b"
    ∧ get_hardiness_zone "Unknown City, ZZ" = "6b" :=
  ⟨fun location => zone_lookup_eq_find? zone_map (py_lower location), rfl, rfl⟩

/-- C8 counterexample: the claim says every string outside the 8-entry table
yields "partial sun", but `map_direction_to_sun` upper-cases its argument
first, so the lower-case direction "n" — a string outside the table — yields
"shade". -/
theorem C8_sun_fallback_counterexample :
    map_direction_to_sun "n" = "shade"
    ∧ "n" ∉ sun_map.map Prod.fst
    ∧ ("shade" : String) ≠ "partial sun" :=
  ⟨rfl, by decide, by decide⟩

/-- C8 (amended): each of the 8 table entries yields a value in the fixed
four-element sun-level set, and every string whose upper-cased form is outside
the table yields "partial sun" (the lookup is case-insensitive via
`.upper()`). -/
theorem C8_sun_level_range_and_default :
    (∀ p ∈ sun_map,
      map_direction_to_sun p.1 ∈ ["full sun", "partial sun", "partial shade", "shade"])
    ∧ (∀ direction : String, py_upper direction ∉ sun_map.map Prod.fst →
        map_direction_to_sun direction = "partial sun") := by
  constructor
  · decide
  · intro direction h
    unfold map_direction_to_sun
    rw [lookup_first_eq_none sun_map (py_upper direction) h]
    rfl

/-- C8 witness: the amended theorem at the concrete direction "N" (in the
table) and "q" (upper-cased form outside the table). -/
theorem C8_sun_level_witness :
    map_direction_to_sun ("N", "shade").1 ∈ ["full sun", "partial sun", "partial shade", "shade"]
    ∧ map_direction_to_sun "q" = "partial sun" :=
  ⟨C8_sun_level_range_and_default.1 ("N", "shade") (by decide),
   C8_sun_level_range_and_default.2 "q" (by decide)⟩

/-- C6: the log-store write paths return normally on every input: the
module-level `log_request` swallows console and backup failures and always
returns, and `LoggingService.log_request` catches commit failures (returning
`None`) and backup failures (warning only), so no exception from the
logging/backup path propagates to the caller. -/
theorem C6_log_write_never_raises :
    ∀ (console_log : Except String Unit) (spaces_enabled : Bool)
      (backup : Except String (Option String)) (commit : Except String Nat),
      log_request_simple console_log spaces_enabled backup = .ok ()
      ∧ ∃ r, loggingService_log_request commit backup = .ok r := by
  intro console_log spaces_enabled backup commit
  constructor
  · cases console_log <;> cases spaces_enabled <;> cases backup <;> rfl
  · cases commit <;> cases backup <;> exact ⟨_, rfl⟩

/-- C5 counterexample: a gateway failure raised as `HTTPException` (here the
not-configured 503) reaches the `except HTTPException: raise` arm, which
re-raises without any `log_request` call — the log-write count for this
terminal failure is 0, not 1. -/
theorem C5_gateway_failure_skips_log :
    get_plant_recommendations_flow "Denver, CO" "Spring Planting Season"
      (.error ⟨503, "GenAI Agent not configured. Please check environment variables."⟩)
      = (.gatewayError 503 "GenAI Agent not configured. Please check environment variables.", 0) :=
  rfl

/-- C5 (amended): success and failures classified inside the handler trigger
exactly one log-write attempt before the response is emitted, but failures
raised as `HTTPException` by the gateway (not configured, upstream status,
timeout) are re-raised with zero log-write attempts. -/
theorem C5_log_write_counts :
    (∀ (request_location local_season : String) (e : HttpError),
      get_plant_recommendations_flow request_location local_season (.error e)
        = (.gatewayError e.status e.detail, 0))
    ∧ (∀ (request_location local_season : String) (agent_response : Json),
      (get_plant_recommendations_flow request_location local_season (.ok agent_response)).2 = 1) := by
  constructor
  · intro _ _ _
    rfl
  · intro request_location local_season agent_response
    unfold get_plant_recommendations_flow
    cases h : (parse_agent_response agent_response).bind
        (validate_recommendations request_location local_season) <;> simp [h]

/-- C4: at a completion with no fence and no brace the parser fails with
"Failed to parse agent response: Could not extract JSON from agent response",
which the classifier sends to the catch-all (500, genai_agent_failed,
retry) — not the 502 invalid-output class the claim states; that 502 class
(genai_response_invalid) only fires for messages containing both "invalid"
and "json", such as the sibling llm_service wording. -/
theorem C4_unparseable_output_classified_500 :
    parse_agent_content "I cannot help with that."
      = .error "Failed to parse agent response: Could not extract JSON from agent response"
    ∧ classify_error "Failed to parse agent response: Could not extract JSON from agent response"
      = ⟨500, "genai_agent_failed", true⟩
    ∧ classify_error "Invalid JSON response from GenAI Agent: Expecting value"
      = ⟨502, "genai_response_invalid", true⟩ :=
  ⟨rfl, rfl, rfl⟩

/-- C1 counterexample: strict parsing of `mixed_fence_content` fails and its
fenced block holds non-JSON, so `extract_json` raises the decode error —
even though the greedy-regex fallback (c) finds a brace-balanced substring
that parses; the claimed try-them-in-order behavior would have returned that
object instead of failing. -/
theorem C1_fallback_counterexample :
    json_loads mixed_fence_content = none
    ∧ extract_json mixed_fence_content = .error json_decode_error_msg
    ∧ regex_brace_match mixed_fence_content = some "\x7b\"a\": 1\x7d"
    ∧ json_loads "\x7b\"a\": 1\x7d" = some (.obj [("a", .num 1)]) :=
  ⟨rfl, rfl, rfl, rfl⟩

/-- C1 (amended): the parser attempts strict JSON parsing first; on failure it
selects exactly one extraction by marker presence — the ```json fenced block
when that marker occurs, else the bare ``` block when a fence occurs, else
the greedy brace-regex match — parses only that extracted text, and fails if
the selected extraction does not parse (later fallbacks are never tried; the
no-marker, no-brace failure message does not carry the offending text). -/
theorem C1_single_fallback_by_marker (content : String) :
    (∀ j, json_loads content = some j → extract_json content = .ok j)
    ∧ (json_loads content = none → py_in "```json" content = true →
        extract_json content =
          match json_loads (extract_fence_json content) with
          | some j => .ok j
          | none => .error json_decode_error_msg)
    ∧ (json_loads content = none → py_in "```json" content = false →
        py_in "```" content = true →
        extract_json content =
          match json_loads (extract_fence_bare content) with
          | some j => .ok j
          | none => .error json_decode_error_msg)
    ∧ (json_loads content = none → py_in "```json" content = false →
        py_in "```" content = false →
        extract_json content =
          match regex_brace_match content with
          | some s =>
            match json_loads s with
            | some j => .ok j
            | none => .error json_decode_error_msg
          | none => .error "Could not extract JSON from agent response") := by
  refine ⟨?_, ?_, ?_, ?_⟩
  · intro j h
    unfold extract_json
    rw [h]
  · intro h1 h2
    unfold extract_json
    rw [h1, h2]
    simp
  · intro h1 h2 h3
    unfold extract_json
    rw [h1, h2, h3]
    simp
  · intro h1 h2 h3
    unfold extract_json
    rw [h1, h2, h3]
    simp

/-- C1 witness: the four branches of the amended theorem at concrete
completions — strict JSON, a parsable ```json fence, a parsable bare fence,
and a regex-extracted object. -/
theorem C1_single_fallback_witness :
    extract_json "\x7b\x7d" = .ok (.obj [])
    ∧ extract_json "```json\n\x7b\"k\": 2\x7d\n```" = .ok (.obj [("k", .num 2)])
    ∧ extract_json "text ```\n[1, 2]\n``` end" = .ok (.arr [.num 1, .num 2])
    ∧ extract_json "answer \x7b\"z\": 3\x7d ok" = .ok (.obj [("z", .num 3)]) := by
  refine ⟨(C1_single_fallback_by_marker "\x7b\x7d").1 (.obj []) rfl, ?_, ?_, ?_⟩
  · exact (C1_single_fallback_by_marker "```json\n\x7b\"k\": 2\x7d\n```").2.1 rfl rfl
  · exact (C1_single_fallback_by_marker "text ```\n[1, 2]\n``` end").2.2.1 rfl rfl rfl
  · exact (C1_single_fallback_by_marker "answer \x7b\"z\": 3\x7d ok").2.2.2 rfl rfl rfl

/-- C3: when the plants array is present but every entry fails validation,
the operation fails with the "No valid plants" error, which the classifier
maps to status 500 with retry_suggested = true (none of the earlier
classifier keywords occurs in that message). -/
theorem C3_no_valid_plants_500 (request_location local_season : String)
    (fields : List (String × Json)) (plants : List Json)
    (hp : lookup_first fields "plants" = some (.arr plants))
    (hall : ∀ p ∈ plants, validate_mapped_plant p = none) :
    validate_recommendations request_location local_season (.obj fields)
      = .error "No valid plants in GenAI Agent response"
    ∧ classify_error "No valid plants in GenAI Agent response"
      = ⟨500, "genai_agent_failed", true⟩ := by
  constructor
  · have hgp : get_plants (.obj fields) = some (.arr plants) := hp
    have hfm : (plant_entries (.arr plants)).filterMap validate_mapped_plant = [] :=
      filterMap_eq_nil_of_forall_none validate_mapped_plant plants hall
    simp only [validate_recommendations, hgp, hfm]
  · rfl

/-- C3 witness: a plants array whose only entry is a non-object (its `.get`
raises, so it is skipped) leaves zero valid plants. -/
theorem C3_no_valid_plants_witness :
    validate_recommendations "Denver, CO" "Spring Planting Season"
      (.obj [("plants", .arr [.str "not a dict"])])
      = .error "No valid plants in GenAI Agent response"
    ∧ classify_error "No valid plants in GenAI Agent response"
      = ⟨500, "genai_agent_failed", true⟩ :=
  C3_no_valid_plants_500 "Denver, CO" "Spring Planting Season" _ _ rfl
    (by
      intro p hp
      rw [List.mem_singleton] at hp
      subst hp
      rfl)

/-- C2: when the parsed object carries a plants array of 5 entries of which
exactly one fails validation, each entry is validated independently (the
result is the `filterMap` of per-entry validation), the failing entry is
skipped without aborting the batch, and the operation returns 4 validated
plants without raising (stated for an object without its own
location/season overrides and a locally derived season within the schema
bounds, as in the spec's example). -/
theorem C2_one_invalid_entry_skipped (request_location local_season : String)
    (fields : List (String × Json)) (plants : List Json)
    (hp : lookup_first fields "plants" = some (.arr plants))
    (hloc : lookup_first fields "location" = none)
    (hsea : lookup_first fields "season" = none)
    (_hlen : plants.length = 5)
    (hvalid : plants.countP (fun p => (validate_mapped_plant p).isSome) = 4)
    (hseason_lo : 5 ≤ local_season.length) (hseason_hi : local_season.length ≤ 100) :
    validate_recommendations request_location local_season (.obj fields)
      = .ok ⟨request_location, local_season,
          plants.filterMap validate_mapped_plant, "genai_agent"⟩
    ∧ (plants.filterMap validate_mapped_plant).length = 4 := by
  have hfm_len : (plants.filterMap validate_mapped_plant).length = 4 := by
    rw [filterMap_length_eq_countP]
    exact hvalid
  refine ⟨?_, hfm_len⟩
  have hgp : get_plants (.obj fields) = some (.arr plants) := hp
  have hjl : jget_default (.obj fields) "location" (.str request_location)
      = .str request_location := by
    show (lookup_first fields "location").getD (.str request_location) = _
    rw [hloc]
    rfl
  have hjs : jget_default (.obj fields) "season" (.str local_season)
      = .str local_season := by
    show (lookup_first fields "season").getD (.str local_season) = _
    rw [hsea]
    rfl
  cases hfm : plants.filterMap validate_mapped_plant with
  | nil => exact absurd (hfm ▸ hfm_len) (by simp)
  | cons p ps =>
    have hlen2 : (p :: ps).length = 4 := hfm ▸ hfm_len
    have hmk : mkRecommendationResponse (.str request_location) (.str local_season)
        (p :: ps) "genai_agent"
        = .ok ⟨request_location, local_season, p :: ps, "genai_agent"⟩ := by
      simp only [mkRecommendationResponse, coerce_str]
      rw [if_neg (by omega : ¬local_season.length < 5),
        if_neg (by omega : ¬100 < local_season.length),
        if_neg (by omega : ¬(p :: ps).length < 1),
        if_neg (by omega : ¬10 < (p :: ps).length)]
    simp only [validate_recommendations, hgp, plant_entries, hfm, hjl, hjs]
    exact hmk

/-- C2 witness: a plants array with four empty objects (valid via the
remapping defaults) and one non-object entry yields exactly the four default
plants. -/
theorem C2_one_invalid_entry_witness :
    validate_recommendations "Denver, CO" "Spring Planting Season"
      (.obj [("plants", .arr [.obj [], .obj [], .obj [], .obj [], .str "bad"])])
      = .ok ⟨"Denver, CO", "Spring Planting Season",
          ([.obj [], .obj [], .obj [], .obj [], .str "bad"] : List Json).filterMap
            validate_mapped_plant, "genai_agent"⟩
    ∧ (([.obj [], .obj [], .obj [], .obj [], .str "bad"] : List Json).filterMap
        validate_mapped_plant).length = 4 :=
  C2_one_invalid_entry_skipped "Denver, CO" "Spring Planting Season" _ _
    rfl rfl rfl rfl (by decide) (by decide) (by decide)

/-- C9: every successfully constructed `RecommendationResponse` has between 1
and 10 plants; a list of more than 10 validated plants makes the construction
fail rather than return a truncated list; and any response produced by the
route pipeline carries exactly the per-entry-validated plants. -/
theorem C9_response_plant_bounds :
    (∀ (location season : Json) (plants : List Plant) (generated_by : String)
        (r : RecommendationResponse),
      mkRecommendationResponse location season plants generated_by = .ok r →
        1 ≤ r.plants.length ∧ r.plants.length ≤ 10)
    ∧ (∀ (location season : Json) (plants : List Plant) (generated_by : String)
        (r : RecommendationResponse), 10 < plants.length →
      mkRecommendationResponse location season plants generated_by ≠ .ok r)
    ∧ (∀ (request_location local_season : String) (recs : Json)
        (r : RecommendationResponse),
      validate_recommendations request_location local_season recs = .ok r →
        r.plants
          = (plant_entries ((get_plants recs).getD (.arr []))).filterMap validate_mapped_plant
        ∧ 1 ≤ r.plants.length ∧ r.plants.length ≤ 10) := by
  refine ⟨?_, ?_, ?_⟩
  · intro location season plants generated_by r h
    obtain ⟨hpl, h1, h2⟩ := mkRecommendationResponse_ok h
    rw [hpl]
    exact ⟨h1, h2⟩
  · intro location season plants generated_by r hlen h
    obtain ⟨_, _, h2⟩ := mkRecommendationResponse_ok h
    omega
  · intro request_location local_season recs r h
    cases hgp : get_plants recs with
    | none =>
      simp only [validate_recommendations, hgp] at h
      exact (Except.noConfusion h)
    | some pj =>
      simp only [validate_recommendations, hgp] at h
      cases hfm : (plant_entries pj).filterMap validate_mapped_plant with
      | nil =>
        simp only [hfm] at h
        exact (Except.noConfusion h)
      | cons p ps =>
        simp only [hfm] at h
        obtain ⟨hpl, h1, h2⟩ := mkRecommendationResponse_ok h
        refine ⟨?_, ?_, ?_⟩
        · rw [hpl, Option.getD_some]
          exact hfm.symm
        · rw [hpl]; exact h1
        · rw [hpl]; exact h2

/-- C9 witness: a one-plant construction succeeds within bounds, an 11-plant
construction is rejected, and a concrete pipeline run returns exactly its
validated plants. -/
theorem C9_response_plant_bounds_witness :
    (1 ≤ (⟨"Denver, CO", "Spring Planting Season", [default_mapped_plant], "genai_agent"⟩
        : RecommendationResponse).plants.length
      ∧ (⟨"Denver, CO", "Spring Planting Season", [default_mapped_plant], "genai_agent"⟩
        : RecommendationResponse).plants.length ≤ 10)
    ∧ mkRecommendationResponse (.str "Denver, CO") (.str "Spring Planting Season")
        (List.replicate 11 default_mapped_plant) "genai_agent"
        ≠ .ok ⟨"Denver, CO", "Spring Planting Season",
            List.replicate 11 default_mapped_plant, "genai_agent"⟩
    ∧ ((⟨"Denver, CO", "Spring Planting Season", [default_mapped_plant], "genai_agent"⟩
        : RecommendationResponse).plants
        = List.filterMap validate_mapped_plant
            (plant_entries ((get_plants (.obj [("plants", .arr [.obj []])])).getD (.arr [])))
      ∧ 1 ≤ (⟨"Denver, CO", "Spring Planting Season", [default_mapped_plant], "genai_agent"⟩
          : RecommendationResponse).plants.length
      ∧ (⟨"Denver, CO", "Spring Planting Season", [default_mapped_plant], "genai_agent"⟩
          : RecommendationResponse).plants.length ≤ 10) :=
  ⟨C9_response_plant_bounds.1 (.str "Denver, CO") (.str "Spring Planting Season")
      [default_mapped_plant] "genai_agent" _ rfl,
   C9_response_plant_bounds.2.1 (.str "Denver, CO") (.str "Spring Planting Season")
      (List.replicate 11 default_mapped_plant) "genai_agent" _ (by decide),
   C9_response_plant_bounds.2.2 "Denver, CO" "Spring Planting Season"
      (.obj [("plants", .arr [.obj []])]) _ rfl⟩

/-- C10: in the field-remapping pipeline, every JSON-object entry whose
provided keys all carry in-bounds values validates successfully, because each
per-field default itself satisfies the `Plant` schema; absent keys fall back
to those defaults. -/
theorem C10_defaults_always_valid (fields : List (String × Json))
    (hname : ∀ v, lookup_first fields "name" = some v →
      ∃ s, v = .str s ∧ 1 ≤ s.length ∧ s.length ≤ 100)
    (hsci : ∀ v, lookup_first fields "scientific_name" = some v →
      ∃ s, v = .str s ∧ 1 ≤ s.length ∧ s.length ≤ 150)
    (hsun : ∀ v, lookup_first fields "sun_requirements" = some v →
      ∃ s, v = .str s ∧ s ∈ sun_values)
    (hwater : ∀ v, lookup_first fields "water_needs" = some v →
      ∃ s, v = .str s ∧ s ∈ level_values)
    (hmaint : ∀ v, lookup_first fields "maintenance_level" = some v →
      ∃ s, v = .str s ∧ s ∈ level_values)
    (hnow : ∀ v, lookup_first fields "plant_now" = some v → ∃ b, v = .bool b)
    (hdesc : ∀ v, lookup_first fields "description" = some v →
      ∃ s, v = .str s ∧ 10 ≤ s.length ∧ s.length ≤ 500) :
    (validate_mapped_plant (.obj fields)).isSome := by
  have hn : (validate_str ((lookup_first fields "name").getD (.str "Unknown Plant"))
      1 100).isSome := by
    cases ho : lookup_first fields "name" with
    | none => decide
    | some v => rw [Option.getD_some]; exact validate_str_isSome (hname v ho)
  have hs : (validate_str ((lookup_first fields "scientific_name").getD
      (.str "Unknown species")) 1 150).isSome := by
    cases ho : lookup_first fields "scientific_name" with
    | none => decide
    | some v => rw [Option.getD_some]; exact validate_str_isSome (hsci v ho)
  have hsu : (validate_enum ((lookup_first fields "sun_requirements").getD
      (.str "Partial Sun")) sun_values).isSome := by
    cases ho : lookup_first fields "sun_requirements" with
    | none => decide
    | some v => rw [Option.getD_some]; exact validate_enum_isSome (hsun v ho)
  have hw : (validate_enum ((lookup_first fields "water_needs").getD
      (.str "Medium")) level_values).isSome := by
    cases ho : lookup_first fields "water_needs" with
    | none => decide
    | some v => rw [Option.getD_some]; exact validate_enum_isSome (hwater v ho)
  have hm : (validate_enum ((lookup_first fields "maintenance_level").getD
      (.str "Medium")) level_values).isSome := by
    cases ho : lookup_first fields "maintenance_level" with
    | none => decide
    | some v => rw [Option.getD_some]; exact validate_enum_isSome (hmaint v ho)
  have hpn : (validate_bool ((lookup_first fields "plant_now").getD
      (.bool false))).isSome := by
    cases ho : lookup_first fields "plant_now" with
    | none => decide
    | some v => rw [Option.getD_some]; exact validate_bool_isSome (hnow v ho)
  have hci : (validate_str ((lookup_first fields "description").getD
      (.str "No care instructions available")) 10 500).isSome := by
    cases ho : lookup_first fields "description" with
    | none => decide
    | some v => rw [Option.getD_some]; exact validate_str_isSome (hdesc v ho)
  have hno : (validate_str ((lookup_first fields "description").getD
      (.str "No additional notes available")) 10 500).isSome := by
    cases ho : lookup_first fields "description" with
    | none => decide
    | some v => rw [Option.getD_some]; exact validate_str_isSome (hdesc v ho)
  obtain ⟨n, hn⟩ := Option.isSome_iff_exists.mp hn
  obtain ⟨sc, hs⟩ := Option.isSome_iff_exists.mp hs
  obtain ⟨su, hsu⟩ := Option.isSome_iff_exists.mp hsu
  obtain ⟨w, hw⟩ := Option.isSome_iff_exists.mp hw
  obtain ⟨m, hm⟩ := Option.isSome_iff_exists.mp hm
  obtain ⟨pn, hpn⟩ := Option.isSome_iff_exists.mp hpn
  obtain ⟨ci, hci⟩ := Option.isSome_iff_exists.mp hci
  obtain ⟨no, hno⟩ := Option.isSome_iff_exists.mp hno
  simp only [validate_mapped_plant, validate_plant_fields, hn, hs, hsu, hw, hm,
    hpn, hci, hno, Option.bind_some]
  rfl

/-- C10 witness: the empty object validates to the all-defaults plant. -/
theorem C10_defaults_witness : (validate_mapped_plant (.obj [])).isSome :=
  C10_defaults_always_valid []
    (fun _ h => nomatch h) (fun _ h => nomatch h) (fun _ h => nomatch h)
    (fun _ h => nomatch h) (fun _ h => nomatch h) (fun _ h => nomatch h)
    (fun _ h => nomatch h)
